import Mathlib

/-
Verification development for the AI Discount Service (src/server.js).

The service is a cart-abandonment detection loop.  Every tick it fetches each
candidate user's cart, tracks inactivity in a process-wide map, enriches
non-empty carts with product prices and categories, gates a discount decision
on the inactivity time, and dispatches a discount email when the decision says
to send one.

Modelling conventions:
* gRPC calls to the three external services (CartService, ProductCatalogService
  and the analysis backend) are modelled as functions in an `Env` record that
  return `Except GrpcErr _`: a callback invoked with `err` is an `Except.error`,
  a callback invoked with a value is `Except.ok`.  `Promise.all` over the
  product fetches is `fetchAll`, which succeeds with the products in item
  order exactly when every individual fetch succeeds and otherwise fails with
  a failed fetch (fail-as-unit).
* JavaScript numbers are modelled twice.  The main pipeline uses exact
  rationals (`ℚ`) for money amounts and mathematical integers (`ℤ`) for
  timestamps; every branch condition of the program compares integers only, so
  the control flow of this model agrees with the program on all realistic
  inputs.  Because claim C1 is sensitive to the difference between exact
  decimal arithmetic and the IEEE-754 binary64 arithmetic the program really
  performs, the money computation is modelled a second time in `Dy`, an exact
  model of binary64 values (a dyadic rational with a 53-bit mantissa produced
  by round-to-nearest, ties-to-even), and C1 is settled against that model.
* The mutable `this.userLastActive` JavaScript `Map` is modelled functionally
  as `IMap := String → Option Int`; each step of the loop returns the map it
  leaves behind together with the observable events of that step.
-/

namespace DiscountService

/-- gRPC status codes distinguished by the program.  `getCartForUser` treats
`NOT_FOUND` specially; every other code is an ordinary failure. -/
inductive StatusCode
  | NOT_FOUND
  | DEADLINE_EXCEEDED
  | UNAVAILABLE
  | INTERNAL
deriving DecidableEq

/-- A gRPC error as seen by the callbacks: only its status code matters. -/
structure GrpcErr where
  code : StatusCode
deriving DecidableEq

/-- The protobuf Money value: integer units plus nano-units (scale 1e9). -/
structure Money where
  units : Int
  nanos : Int
deriving DecidableEq

/-- A product record from the ProductCatalogService: price and categories. -/
structure Product where
  price_usd : Option Money
  categories : List String
deriving DecidableEq

/-- One line item of a cart: product identifier and quantity. -/
structure CartItem where
  product_id : String
  quantity : Int
deriving DecidableEq

/-- A cart as returned by the CartService. -/
structure Cart where
  user_id : String
  items : List CartItem
deriving DecidableEq

/-- The discount decision returned by `analyzeUserBehavior` (server.js lines
112-116). -/
structure Decision where
  shouldSendDiscount : Bool
  discountPercentage : Int
  reason : String
deriving DecidableEq

/-- The email request `sendDiscountEmail` assembles (server.js lines 129-134). -/
structure EmailRequest where
  email : String
  discount_code : String
  discount_percentage : Int
  reason_message : String
deriving DecidableEq

/-- The `cart` part of the analysis payload (server.js lines 197-201). -/
structure PayloadCart where
  items : List CartItem
  totalValue : ℚ
  categories : List String
deriving DecidableEq

/-- The payload handed to `analyzeUserBehavior` (server.js lines 194-202). -/
structure AnalysisPayload where
  userId : String
  inactivityTimeSeconds : Int
  cart : PayloadCart
deriving DecidableEq

/-- The `this.userLastActive` map: user id to last-active timestamp (ms). -/
def IMap : Type := String → Option Int

/-- The map at service start (server.js line 35): empty. -/
def mapEmpty : IMap := fun _ => none

/-- `Map.prototype.set`: overwrite the entry of one key. -/
def mapSet (m : IMap) (k : String) (v : Int) : IMap :=
  fun x => if x = k then some v else m x

/-- `Map.prototype.delete`: remove the entry of one key. -/
def mapDelete (m : IMap) (k : String) : IMap :=
  fun x => if x = k then none else m x

/-- The three external collaborators of the service, as request/response
functions.  `getCart` and `getProduct` model the CartService and
ProductCatalogService gRPC calls wrapped in promises (server.js lines 63-87).

Modelled from the spec: the `analyze` field stands for the external
behavior-analysis call that `analyzeUserBehavior` is documented to make (the
source only contains a TODO and a mocked constant there); following section 4.4
of the spec it is a request/response call that may fail or time out, and the
shipped mock corresponds to `analyze = mockAnalyze` below. -/
structure Env where
  getCart : String → Except GrpcErr Cart
  getProduct : String → Except GrpcErr Product
  analyze : AnalysisPayload → Except GrpcErr Decision

/-- server.js lines 63-76 (identically lines 39-52 of the earlier revision of
src/server.js): fetch a cart and normalize a NOT_FOUND error to an empty cart
for that user; every other error is surfaced to the caller. -/
def getCartForUser (env : Env) (userId : String) : Except GrpcErr Cart :=
  match env.getCart userId with
  | .error err =>
      if err.code = StatusCode.NOT_FOUND then .ok ⟨userId, []⟩ else .error err
  | .ok cart => .ok cart

/-- server.js lines 78-87: fetch one product; errors are surfaced unchanged. -/
def getProductDetails (env : Env) (productId : String) : Except GrpcErr Product :=
  env.getProduct productId

/-- server.js lines 89-93, exact-value model: convert a Money object to a
number; an absent object is treated as 0. -/
def moneyToFloat : Option Money → ℚ
  | none => 0
  | some money => (money.units : ℚ) + (money.nanos : ℚ) / 1000000000

/-- server.js lines 100-117: the mocked analysis implementation.  It ignores
its input and returns the same constant decision. -/
def analyzeUserBehavior (_userData : AnalysisPayload) : Decision :=
  ⟨true, 15, "High cart value with significant user hesitation."⟩

/-- The fixed reason message of the discount email (server.js line 133). -/
def reasonMessage : String :=
  "We noticed you left some items in your cart and wanted to offer a little something to help you complete your order!"

/-- server.js lines 119-140: build the discount-offer payload for the email
service from the recipient address and the decision. -/
def sendDiscountEmail (userEmail : String) (discount : Decision) : EmailRequest :=
  ⟨userEmail, "COMEBACK" ++ toString discount.discountPercentage,
    discount.discountPercentage, reasonMessage⟩

/-- The `analyze` field corresponding to the shipped code, where the awaited
call is the local mock and never fails. -/
def mockAnalyze : AnalysisPayload → Except GrpcErr Decision :=
  fun userData => .ok (analyzeUserBehavior userData)

/-- server.js lines 158-163, the Inactivity Tracker operation the spec calls
`recordCartEmpty`: on observing an empty cart, delete the entry if present. -/
def recordCartEmpty (m : IMap) (userId : String) : IMap :=
  if (m userId).isSome then mapDelete m userId else m

/-- server.js lines 169-173: elapsed milliseconds since the user was last seen
with a non-empty cart, 0 if the user is not tracked. -/
def inactivityMs (m : IMap) (userId : String) (now : Int) : Int :=
  match m userId with
  | some t => now - t
  | none => 0

/-- server.js lines 168-175 together with the flooring at line 196, the
Inactivity Tracker operation the spec calls `recordCartActive`: yield the
inactivity in whole seconds and overwrite the entry with `now`. -/
def recordCartActive (m : IMap) (userId : String) (now : Int) : Int × IMap :=
  (Int.fdiv (inactivityMs m userId now) 1000, mapSet m userId now)

/-- `Set.prototype.add` on a set represented as its insertion-ordered list of
distinct elements: append the element unless already present. -/
def setAdd (s : List String) (cat : String) : List String :=
  if cat ∈ s then s else s ++ [cat]

/-- server.js line 190: add all categories of one product to the set. -/
def addCategories (s : List String) (product : Product) : List String :=
  product.categories.foldl setAdd s

/-- server.js lines 179, 186-191 (category part): the category set collected
over all fetched products, as `Array.from` returns it. -/
def collectCategories (productDetails : List Product) : List String :=
  productDetails.foldl addCategories []

/-- server.js lines 186-191 (value part, exact-value model): the `forEach`
over `productDetails` with index, accumulating `price * quantity` into the
running total; `item` is `cart.items[index]`. -/
def processDetails (items : List CartItem) : List Product → Nat → ℚ → ℚ
  | [], _, total => total
  | product :: rest, index, total =>
      let item := items.getD index ⟨"", 0⟩
      processDetails items rest (index + 1)
        (total + moneyToFloat product.price_usd * (item.quantity : ℚ))

/-- server.js lines 178-191 (exact-value model): `totalCartValue` after the
`forEach`, starting from 0. -/
def totalCartValue (items : List CartItem) (productDetails : List Product) : ℚ :=
  processDetails items productDetails 0 0

/-- server.js line 199, exact-value model: `parseFloat(x.toFixed(2))`.
`Number.prototype.toFixed(2)` chooses the integer n minimizing the distance of
n/100 to the value, preferring the larger n on a tie, which on exact values is
`Int.floor (x * 100 + 1/2)`. -/
def toFixed2 (x : ℚ) : ℚ :=
  ((⌊x * 100 + 1 / 2⌋ : Int) : ℚ) / 100

/-- server.js lines 194-202: the analysis payload assembled for one user. -/
def buildPayload (userId : String) (inactivityTimeMs : Int) (cart : Cart)
    (productDetails : List Product) : AnalysisPayload :=
  ⟨userId, Int.fdiv inactivityTimeMs 1000,
    ⟨cart.items, toFixed2 (totalCartValue cart.items productDetails),
      collectCategories productDetails⟩⟩

/-- server.js lines 181-183: issue a product-detail fetch for every line item
and join them with `Promise.all`, which succeeds with the list of products in
item order exactly when every fetch succeeds, and fails with a failed fetch
otherwise (in this sequential model, with the first failure in item order). -/
def fetchAll (env : Env) : List CartItem → Except GrpcErr (List Product)
  | [] => .ok []
  | item :: items =>
      match getProductDetails env item.product_id, fetchAll env items with
      | .error err, _ => .error err
      | .ok _, .error err => .error err
      | .ok product, .ok products => .ok (product :: products)

/-- The observable result of processing one user in one tick: the inactivity
map left behind, the payloads passed to the analysis call, the email requests
dispatched, and the error caught by the per-user catch block, if any. -/
structure UserOutcome where
  map : IMap
  analyzed : List AnalysisPayload
  emails : List EmailRequest
  caught : Option GrpcErr

/-- server.js lines 153-219: the body of the per-user loop of one tick,
including the surrounding try/catch (a caught error lands in `caught` and
never escapes). -/
def processUser (env : Env) (m : IMap) (now : Int) (userId : String) : UserOutcome :=
  match getCartForUser env userId with
  | .error err => ⟨m, [], [], some err⟩
  | .ok cart =>
      if cart.items.isEmpty then
        ⟨if (m userId).isSome then mapDelete m userId else m, [], [], none⟩
      else
        let inactivityTimeMs := inactivityMs m userId now
        let m2 := mapSet m userId now
        match fetchAll env cart.items with
        | .error err => ⟨m2, [], [], some err⟩
        | .ok productDetails =>
            let analysisPayload := buildPayload userId inactivityTimeMs cart productDetails
            if analysisPayload.inactivityTimeSeconds > 60 then
              match env.analyze analysisPayload with
              | .error err => ⟨m2, [analysisPayload], [], some err⟩
              | .ok analysis =>
                  if analysis.shouldSendDiscount then
                    ⟨m2, [analysisPayload],
                      [sendDiscountEmail (userId ++ "@example.com") analysis], none⟩
                  else ⟨m2, [analysisPayload], [], none⟩
            else ⟨m2, [], [], none⟩

/-- server.js lines 147-221: one full tick, iterating the candidate users in
order and threading the inactivity map through; each user contributes one
`UserOutcome` whether or not their processing failed. -/
def tick (env : Env) (now : Int) : List String → IMap → IMap × List (String × UserOutcome)
  | [], m => (m, [])
  | userId :: rest, m =>
      let o := processUser env m now userId
      let r := tick env now rest o.map
      (r.1, (userId, o) :: r.2)

/-- server.js line 151: the hardcoded candidate user list of each tick. -/
def activeUserIds : List String := ["1", "2", "3"]

/-- One per-user observation of the Inactivity Tracker, for stating its
history invariant: either a non-empty cart seen at a timestamp, or an empty
cart. -/
inductive CartObs
  | active (now : Int)
  | empty
deriving DecidableEq

/-- Apply one observation for one user to the inactivity map, exactly as the
loop body does (empty cart: `recordCartEmpty`; non-empty: the overwrite of
`recordCartActive`). -/
def applyObs (m : IMap) (userId : String) : CartObs → IMap
  | .active now => (recordCartActive m userId now).2
  | .empty => recordCartEmpty m userId

/-- Run a sequence of per-user observations against the map. -/
def runTrace : List (String × CartObs) → IMap → IMap
  | [], m => m
  | (userId, o) :: rest, m => runTrace rest (applyObs m userId o)

/-- Fold computing the last observation made for one user, starting from a
given earlier result. -/
def lastObsFrom (userId : String) (acc : Option CartObs)
    (tr : List (String × CartObs)) : Option CartObs :=
  tr.foldl (fun a p => if p.1 = userId then some p.2 else a) acc

/-- The last observation made for one user in a trace, if any. -/
def lastObs (userId : String) (tr : List (String × CartObs)) : Option CartObs :=
  lastObsFrom userId none tr

/-- An IEEE-754 binary64 value represented exactly: the dyadic rational
`m * 2 ^ e`.  Values produced by `fpRound` have `2 ^ 52 ≤ m.natAbs ≤ 2 ^ 53`
(or `m = 0`), so `fpRound` is injective on values and two rounded results are
structurally equal exactly when they are the same double. -/
structure Dy where
  m : Int
  e : Int
deriving DecidableEq

/-- Scale the positive fraction `a / b` by powers of two (tracked in `t`)
until it lies in `[2 ^ 52, 2 ^ 53)`.  The fuel bound 4400 covers every
exponent a binary64 computation on the modelled data can reach. -/
def fpNorm : Nat → Nat → Nat → Int → Nat × Nat × Int
  | 0, a, b, t => (a, b, t)
  | f + 1, a, b, t =>
      if a < 2 ^ 52 * b then fpNorm f (2 * a) b (t + 1)
      else if 2 ^ 53 * b ≤ a then fpNorm f a (2 * b) (t - 1)
      else (a, b, t)

/-- Round the positive rational `a / b` to the nearest binary64 value,
ties to even: normalize into `[2 ^ 52, 2 ^ 53)`, then round the mantissa. -/
def fpRoundPos (a b : Nat) : Dy :=
  let n := fpNorm 4400 a b 0
  let q := n.1 / n.2.1
  let r := n.1 % n.2.1
  let mm :=
    if 2 * r < n.2.1 then q
    else if n.2.1 < 2 * r then q + 1
    else if q % 2 = 0 then q else q + 1
  ⟨(mm : Int), -n.2.2⟩

/-- Round the rational `a / b` to the nearest binary64 value (round to
nearest, ties to even; overflow and subnormals do not occur on the modelled
data and are not modelled). -/
def fpRound (a b : Int) : Dy :=
  if a = 0 ∨ b = 0 then ⟨0, 0⟩
  else if (0 < a ∧ 0 < b) ∨ (a < 0 ∧ b < 0) then fpRoundPos a.natAbs b.natAbs
  else
    let d := fpRoundPos a.natAbs b.natAbs
    ⟨-d.m, d.e⟩

/-- The binary64 value of an integer (exact for the magnitudes used here). -/
def dOfInt (n : Int) : Dy := fpRound n 1

/-- A `Dy` as an integer fraction `(numerator, positive power-of-two
denominator)`. -/
def Dy.toFrac (d : Dy) : Int × Nat :=
  if 0 ≤ d.e then (d.m * 2 ^ d.e.toNat, 1) else (d.m, 2 ^ (-d.e).toNat)

/-- The exact rational value of a `Dy`. -/
def Dy.toRat (d : Dy) : ℚ :=
  (d.m : ℚ) * (2 : ℚ) ^ d.e

/-- Binary64 addition: exact sum of the two fractions, then one rounding. -/
def dAdd (x y : Dy) : Dy :=
  let fx := x.toFrac
  let fy := y.toFrac
  fpRound (fx.1 * (fy.2 : Int) + fy.1 * (fx.2 : Int)) ((fx.2 : Int) * (fy.2 : Int))

/-- Binary64 multiplication: exact product, then one rounding. -/
def dMul (x y : Dy) : Dy :=
  let fx := x.toFrac
  let fy := y.toFrac
  fpRound (fx.1 * fy.1) ((fx.2 : Int) * (fy.2 : Int))

/-- server.js lines 89-93, binary64 model: `parseFloat(money.units)` (exact
for the magnitudes used here) plus the rounded quotient `money.nanos / 1e9`,
the sum rounded once, exactly as evaluated in JavaScript. -/
def moneyToFloatFP : Option Money → Dy
  | none => dOfInt 0
  | some money => dAdd (dOfInt money.units) (fpRound money.nanos 1000000000)

/-- server.js lines 186-191 (value part, binary64 model): the indexed
`forEach` accumulating `price * quantity` in double arithmetic. -/
def processDetailsFP (items : List CartItem) : List Product → Nat → Dy → Dy
  | [], _, total => total
  | product :: rest, index, total =>
      let item := items.getD index ⟨"", 0⟩
      processDetailsFP items rest (index + 1)
        (dAdd total (dMul (moneyToFloatFP product.price_usd) (dOfInt item.quantity)))

/-- server.js lines 178-191 (binary64 model): `totalCartValue` after the
`forEach`, starting from 0. -/
def totalCartValueFP (items : List CartItem) (productDetails : List Product) : Dy :=
  processDetailsFP items productDetails 0 (dOfInt 0)

/-- `Number.prototype.toFixed(2)` as an integer count of hundredths: the
integer n minimizing the distance of n/100 to the exact value of the double,
preferring the larger n on a tie (ECMAScript 6.1.6.1.17), which is
`floor (100 * x + 1/2)` on the exact value `x = a / b`. -/
def jsToFixed2Int (x : Dy) : Int :=
  let f := x.toFrac
  Int.fdiv (200 * f.1 + (f.2 : Int)) (2 * (f.2 : Int))

/-- server.js line 199, binary64 model: `parseFloat(totalCartValue.toFixed(2))`
is the double nearest to n/100 for the `toFixed` integer n. -/
def enrichedTotalFP (items : List CartItem) (productDetails : List Product) : Dy :=
  fpRound (jsToFixed2Int (totalCartValueFP items productDetails)) 100

/-- First product of the spec example for C1: $10.00, two category labels. -/
def exampleProduct1 : Product := ⟨some ⟨10, 0⟩, ["kitchen", "home"]⟩

/-- Second product of the spec example for C1: $5.005 (units 5, nanos
5000000), categories overlapping the first product. -/
def exampleProduct2 : Product := ⟨some ⟨5, 5000000⟩, ["home", "garden"]⟩

/-- The line items of the spec example for C1: qty 2 of the first product,
qty 1 of the second. -/
def exampleItems : List CartItem := [⟨"P1", 2⟩, ⟨"P2", 1⟩]

/-- The fetched product details of the spec example for C1, in item order. -/
def exampleProducts : List Product := [exampleProduct1, exampleProduct2]

/-- A cart holding the example line items, for concrete instantiations. -/
def exampleCart (userId : String) : Cart := ⟨userId, exampleItems⟩

/-- A concrete product catalog serving the two example products. -/
def lookupProduct (productId : String) : Except GrpcErr Product :=
  if productId = "P1" then .ok exampleProduct1
  else if productId = "P2" then .ok exampleProduct2
  else .error ⟨StatusCode.NOT_FOUND⟩

/-- Concrete environment: every user has the example cart, the catalog and the
mocked analysis both work. -/
def envHappy : Env := ⟨fun userId => .ok (exampleCart userId), lookupProduct, mockAnalyze⟩

/-- Concrete environment: every cart comes back empty. -/
def envEmptyCart : Env := ⟨fun userId => .ok ⟨userId, []⟩, lookupProduct, mockAnalyze⟩

/-- Concrete environment: the cart service answers NOT_FOUND for everyone. -/
def envNotFound : Env := ⟨fun _ => .error ⟨StatusCode.NOT_FOUND⟩, lookupProduct, mockAnalyze⟩

/-- Concrete environment: the cart service fails with UNAVAILABLE. -/
def envCartDown : Env := ⟨fun _ => .error ⟨StatusCode.UNAVAILABLE⟩, lookupProduct, mockAnalyze⟩

/-- Concrete environment: carts are fine but every product fetch fails. -/
def envFetchFail : Env :=
  ⟨fun userId => .ok (exampleCart userId), fun _ => .error ⟨StatusCode.INTERNAL⟩, mockAnalyze⟩

/-- Concrete environment: carts and catalog are fine but the analysis call
times out. -/
def envAnalyzeFail : Env :=
  ⟨fun userId => .ok (exampleCart userId), lookupProduct,
    fun _ => .error ⟨StatusCode.DEADLINE_EXCEEDED⟩⟩

/-- A concrete inactivity map tracking user "1" since timestamp 0. -/
def m1 : IMap := mapSet mapEmpty "1" 0

/-- Characterization of `processUser` when the cart fetch fails with an error
other than NOT_FOUND: nothing happens beyond catching the error. -/
theorem processUser_cartError {env : Env} {m : IMap} {now : Int} {userId : String}
    {err : GrpcErr} (h : getCartForUser env userId = .error err) :
    processUser env m now userId = ⟨m, [], [], some err⟩ := by
  simp [processUser, h]

/-- Characterization of `processUser` on an empty cart: the inactivity entry
is dropped (exactly `recordCartEmpty`), nothing is analyzed or sent. -/
theorem processUser_emptyCart {env : Env} {m : IMap} {now : Int} {userId : String}
    {cart : Cart} (h : getCartForUser env userId = .ok cart)
    (he : cart.items.isEmpty = true) :
    processUser env m now userId = ⟨recordCartEmpty m userId, [], [], none⟩ := by
  simp [processUser, h, he, recordCartEmpty]

/-- Characterization of `processUser` when a product fetch fails: the
timestamp overwrite has already happened, no payload is built, no email is
sent, and the error is caught. -/
theorem processUser_fetchError {env : Env} {m : IMap} {now : Int} {userId : String}
    {cart : Cart} {err : GrpcErr} (h : getCartForUser env userId = .ok cart)
    (hne : cart.items.isEmpty = false)
    (hf : fetchAll env cart.items = .error err) :
    processUser env m now userId = ⟨mapSet m userId now, [], [], some err⟩ := by
  simp [processUser, h, hne, hf]

/-- Characterization of `processUser` when enrichment succeeds but the
inactivity gate is not passed: no analysis, no email. -/
theorem processUser_belowGate {env : Env} {m : IMap} {now : Int} {userId : String}
    {cart : Cart} {productDetails : List Product}
    (h : getCartForUser env userId = .ok cart) (hne : cart.items.isEmpty = false)
    (hf : fetchAll env cart.items = .ok productDetails)
    (hg : ¬ (buildPayload userId (inactivityMs m userId now) cart productDetails).inactivityTimeSeconds > 60) :
    processUser env m now userId = ⟨mapSet m userId now, [], [], none⟩ := by
  simp [processUser, h, hne, hf, hg]

/-- Characterization of `processUser` when the gate is passed but the analysis
call fails: the payload was handed to the analysis, no email is sent, the
error is caught. -/
theorem processUser_analyzeError {env : Env} {m : IMap} {now : Int} {userId : String}
    {cart : Cart} {productDetails : List Product} {err : GrpcErr}
    (h : getCartForUser env userId = .ok cart) (hne : cart.items.isEmpty = false)
    (hf : fetchAll env cart.items = .ok productDetails)
    (hg : (buildPayload userId (inactivityMs m userId now) cart productDetails).inactivityTimeSeconds > 60)
    (ha : env.analyze (buildPayload userId (inactivityMs m userId now) cart productDetails) = .error err) :
    processUser env m now userId =
      ⟨mapSet m userId now,
        [buildPayload userId (inactivityMs m userId now) cart productDetails], [], some err⟩ := by
  simp [processUser, h, hne, hf, hg, ha]

/-- Characterization of `processUser` when the gate is passed and the analysis
answers: an email is sent exactly when the decision says to. -/
theorem processUser_decision {env : Env} {m : IMap} {now : Int} {userId : String}
    {cart : Cart} {productDetails : List Product} {analysis : Decision}
    (h : getCartForUser env userId = .ok cart) (hne : cart.items.isEmpty = false)
    (hf : fetchAll env cart.items = .ok productDetails)
    (hg : (buildPayload userId (inactivityMs m userId now) cart productDetails).inactivityTimeSeconds > 60)
    (ha : env.analyze (buildPayload userId (inactivityMs m userId now) cart productDetails) = .ok analysis) :
    processUser env m now userId =
      ⟨mapSet m userId now,
        [buildPayload userId (inactivityMs m userId now) cart productDetails],
        if analysis.shouldSendDiscount then
          [sendDiscountEmail (userId ++ "@example.com") analysis]
        else [], none⟩ := by
  by_cases hs : analysis.shouldSendDiscount <;>
    simp [processUser, h, hne, hf, hg, ha, hs]

/-- Every candidate user of a tick is processed: the outcome list carries one
entry per user, in order, whatever errors occurred for other users. -/
theorem tick_users (env : Env) (now : Int) :
    ∀ (users : List String) (m : IMap), ((tick env now users m).2).map Prod.fst = users := by
  intro users
  induction users with
  | nil => intro m; rfl
  | cons u rest ih => intro m; simp [tick, ih]

/-- Overwriting a key makes it present with the new timestamp. -/
theorem mapSet_self (m : IMap) (k : String) (v : Int) : mapSet m k v k = some v := by
  simp [mapSet]

/-- Overwriting a key leaves every other key unchanged. -/
theorem mapSet_other {m : IMap} {k x : String} (h : x ≠ k) (v : Int) :
    mapSet m k v x = m x := by
  simp [mapSet, h]

/-- After `recordCartEmpty` the user is absent from the map. -/
theorem recordCartEmpty_self (m : IMap) (userId : String) :
    recordCartEmpty m userId userId = none := by
  unfold recordCartEmpty
  cases h : m userId with
  | none => simp [h]
  | some t => simp [h, mapDelete]

/-- `recordCartEmpty` touches no other key. -/
theorem recordCartEmpty_other {m : IMap} {userId x : String} (h : x ≠ userId) :
    recordCartEmpty m userId x = m x := by
  unfold recordCartEmpty
  cases hm : m userId with
  | none => simp [hm]
  | some t => simp [hm, mapDelete, h]

/-- One observation for one user leaves the entries of other users unchanged. -/
theorem applyObs_other {m : IMap} {userId x : String} (h : x ≠ userId) (o : CartObs) :
    applyObs m userId o x = m x := by
  cases o with
  | active now => simp [applyObs, recordCartActive, mapSet_other h]
  | empty => simpa [applyObs] using recordCartEmpty_other h

/-- Invariant of the inactivity map along a trace of observations: a user is
absent exactly when the pending last observation for that user (starting from
`acc`) is an empty-cart observation or, when there is none, the user was
absent to begin with. -/
theorem runTrace_absent_aux :
    ∀ (tr : List (String × CartObs)) (m : IMap) (userId : String) (acc : Option CartObs),
      ((m userId = none) ↔ (acc = none ∨ acc = some CartObs.empty)) →
      ((runTrace tr m userId = none) ↔
        (lastObsFrom userId acc tr = none ∨ lastObsFrom userId acc tr = some CartObs.empty)) := by
  intro tr
  induction tr with
  | nil => intro m userId acc h; exact h
  | cons p rest ih =>
      intro m userId acc h
      obtain ⟨v, o⟩ := p
      show runTrace rest (applyObs m v o) userId = none ↔
        (lastObsFrom userId (if v = userId then some o else acc) rest = none ∨
         lastObsFrom userId (if v = userId then some o else acc) rest = some CartObs.empty)
      apply ih
      by_cases hv : v = userId
      · subst hv
        rw [if_pos rfl]
        cases o with
        | active now => simp [applyObs, recordCartActive, mapSet_self]
        | empty => simp [applyObs, recordCartEmpty_self]
      · rw [if_neg hv, applyObs_other (fun hx => hv hx.symm)]
        exact h

/-- Membership in the set after one `add`. -/
theorem setAdd_mem (s : List String) (c x : String) :
    x ∈ setAdd s c ↔ x ∈ s ∨ x = c := by
  unfold setAdd
  split
  · rename_i h
    constructor
    · exact Or.inl
    · rintro (hx | rfl)
      · exact hx
      · exact h
  · simp [List.mem_append]

/-- One `add` preserves distinctness of the set elements. -/
theorem setAdd_nodup {s : List String} (c : String) (h : s.Nodup) :
    (setAdd s c).Nodup := by
  unfold setAdd
  split
  · exact h
  · rename_i hc
    simp [List.nodup_append, h, hc]

/-- Membership after adding a whole category list. -/
theorem foldl_setAdd_mem :
    ∀ (cats s : List String) (x : String),
      x ∈ cats.foldl setAdd s ↔ x ∈ s ∨ x ∈ cats := by
  intro cats
  induction cats with
  | nil => simp
  | cons c cats ih =>
      intro s x
      rw [List.foldl_cons, ih, setAdd_mem]
      simp [List.mem_cons]
      tauto

/-- Adding a whole category list preserves distinctness. -/
theorem foldl_setAdd_nodup :
    ∀ (cats s : List String), s.Nodup → (cats.foldl setAdd s).Nodup := by
  intro cats
  induction cats with
  | nil => intro s h; exact h
  | cons c cats ih => intro s h; exact ih _ (setAdd_nodup c h)

/-- Membership in the running category set over a product list. -/
theorem foldl_addCategories_mem :
    ∀ (productDetails : List Product) (s : List String) (x : String),
      x ∈ productDetails.foldl addCategories s ↔
        x ∈ s ∨ ∃ p ∈ productDetails, x ∈ p.categories := by
  intro productDetails
  induction productDetails with
  | nil => simp
  | cons product ps ih =>
      intro s x
      rw [List.foldl_cons]
      show x ∈ ps.foldl addCategories (addCategories s product) ↔ _
      rw [ih]
      unfold addCategories
      rw [foldl_setAdd_mem]
      simp [List.mem_cons]
      tauto

/-- The collected category set contains exactly the categories of the fetched
products. -/
theorem collectCategories_mem (productDetails : List Product) (x : String) :
    x ∈ collectCategories productDetails ↔ ∃ p ∈ productDetails, x ∈ p.categories := by
  unfold collectCategories
  rw [foldl_addCategories_mem]
  simp

/-- Folding category additions over products preserves distinctness. -/
theorem foldl_addCategories_nodup :
    ∀ (productDetails : List Product) (s : List String),
      s.Nodup → (productDetails.foldl addCategories s).Nodup := by
  intro productDetails
  induction productDetails with
  | nil => intro s h; exact h
  | cons product ps ih =>
      intro s h
      exact ih _ (foldl_setAdd_nodup _ _ h)

/-- The collected category set has no duplicates. -/
theorem collectCategories_nodup (productDetails : List Product) :
    (collectCategories productDetails).Nodup := by
  exact foldl_addCategories_nodup productDetails [] (by simp)

/-- Indexing just past a prefix picks the first element of the remainder. -/
theorem getD_append_length (pre : List CartItem) (it : CartItem) (rest : List CartItem)
    (d : CartItem) : (pre ++ it :: rest).getD pre.length d = it := by
  induction pre with
  | nil => rfl
  | cons a pre ih => simpa using ih

/-- The indexed `forEach` over the fetched products is the fold over the
products zipped with the line items, whenever the two lists have equal length
(which `Promise.all` guarantees). -/
theorem processDetailsFP_zip :
    ∀ (productDetails : List Product) (pre rest : List CartItem) (total : Dy),
      productDetails.length = rest.length →
      processDetailsFP (pre ++ rest) productDetails pre.length total =
        (productDetails.zip rest).foldl
          (fun t pr => dAdd t (dMul (moneyToFloatFP pr.1.price_usd) (dOfInt pr.2.quantity)))
          total := by
  intro productDetails
  induction productDetails with
  | nil => intro pre rest total h; rfl
  | cons product ps ih =>
      intro pre rest total h
      cases rest with
      | nil => simp at h
      | cons it rest =>
          rw [show processDetailsFP (pre ++ it :: rest) (product :: ps) pre.length total =
              processDetailsFP (pre ++ it :: rest) ps (pre.length + 1)
                (dAdd total (dMul (moneyToFloatFP product.price_usd)
                  (dOfInt (((pre ++ it :: rest).getD pre.length ⟨"", 0⟩).quantity)))) from rfl]
          rw [getD_append_length]
          rw [List.append_cons]
          rw [show pre.length + 1 = (pre ++ [it]).length by simp]
          rw [ih (pre ++ [it]) rest _ (by simpa using h)]
          rfl

/-- `totalCartValue` in the binary64 model equals the zipped fold. -/
theorem totalCartValueFP_zip (items : List CartItem) (productDetails : List Product)
    (h : productDetails.length = items.length) :
    totalCartValueFP items productDetails =
      (productDetails.zip items).foldl
        (fun t pr => dAdd t (dMul (moneyToFloatFP pr.1.price_usd) (dOfInt pr.2.quantity)))
        (dOfInt 0) := by
  have hz := processDetailsFP_zip productDetails [] items (dOfInt 0) h
  simpa [totalCartValueFP] using hz

/-- The joined fetch fails exactly when some individual fetch fails: the
fail-as-unit semantics of `Promise.all`. -/
theorem fetchAll_error_iff (env : Env) :
    ∀ (items : List CartItem),
      (∃ err, fetchAll env items = .error err) ↔
        (∃ item ∈ items, ∃ err, getProductDetails env item.product_id = .error err) := by
  intro items
  induction items with
  | nil =>
      constructor
      · rintro ⟨err, h⟩
        exact absurd h (by simp [fetchAll])
      · rintro ⟨item, hmem, _⟩
        exact absurd hmem (by simp)
  | cons item items ih =>
      show (∃ err, (match getProductDetails env item.product_id, fetchAll env items with
          | .error err, _ => Except.error err
          | .ok _, .error err => Except.error err
          | .ok product, .ok products => Except.ok (product :: products)) = Except.error err) ↔ _
      cases hf : getProductDetails env item.product_id with
      | error err =>
          simp only [List.mem_cons]
          constructor
          · intro _
            exact ⟨item, Or.inl rfl, err, hf⟩
          · intro _
            exact ⟨err, rfl⟩
      | ok product =>
          cases hr : fetchAll env items with
          | error err2 =>
              simp only [List.mem_cons]
              constructor
              · intro _
                obtain ⟨it2, hmem, he⟩ := ih.mp ⟨err2, hr⟩
                exact ⟨it2, Or.inr hmem, he⟩
              · intro _
                exact ⟨err2, rfl⟩
          | ok products =>
              simp only [List.mem_cons]
              constructor
              · rintro ⟨err, h⟩
                exact absurd h (by simp)
              · rintro ⟨it2, hmem2, err, he⟩
                rcases hmem2 with rfl | hmem2
                · rw [hf] at he
                  exact absurd he (by simp)
                · obtain ⟨err2, hr2⟩ := ih.mpr ⟨it2, hmem2, err, he⟩
                  rw [hr2] at hr
                  exact absurd hr (by simp)

/-- C5: a "not found" result from the cart source is normalized by
`getCartForUser` to a successfully resolved cart with an empty items list for
that user, while every other cart-source error is surfaced to the caller as an
error, and a successful fetch is passed through unchanged. -/
theorem C5_notFound_normalized :
    ∀ (env : Env) (userId : String),
      (∀ err, env.getCart userId = .error err → err.code = StatusCode.NOT_FOUND →
        getCartForUser env userId = .ok ⟨userId, []⟩) ∧
      (∀ err, env.getCart userId = .error err → err.code ≠ StatusCode.NOT_FOUND →
        getCartForUser env userId = .error err) ∧
      (∀ cart, env.getCart userId = .ok cart → getCartForUser env userId = .ok cart) := by
  intro env userId
  refine ⟨?_, ?_, ?_⟩
  · intro err h hc
    simp [getCartForUser, h, hc]
  · intro err h hc
    simp [getCartForUser, h, hc]
  · intro cart h
    simp [getCartForUser, h]

/-- Witness for C5 at concrete environments: a NOT_FOUND answer resolves to an
empty cart, an UNAVAILABLE answer is surfaced as the same error. -/
theorem C5_notFound_normalized_witness :
    getCartForUser envNotFound "7" = .ok ⟨"7", []⟩ ∧
    getCartForUser envCartDown "7" = .error ⟨StatusCode.UNAVAILABLE⟩ :=
  ⟨(C5_notFound_normalized envNotFound "7").1 ⟨StatusCode.NOT_FOUND⟩ rfl rfl,
   (C5_notFound_normalized envCartDown "7").2.1 ⟨StatusCode.UNAVAILABLE⟩ rfl (by decide)⟩

/-- C7: `moneyToFloat` returns units plus nanos/1e9 exactly, with no rounding
in the exact-value model, an absent money input yields 0, and units 19 with
nanos 990000000 maps to 19.99. -/
theorem C7_moneyToFloat_exact :
    moneyToFloat none = 0 ∧
    (∀ money : Money, moneyToFloat (some money) =
      (money.units : ℚ) + (money.nanos : ℚ) / 1000000000) ∧
    moneyToFloat (some ⟨19, 990000000⟩) = 1999 / 100 := by
  refine ⟨rfl, fun money => rfl, ?_⟩
  show (19 : ℚ) + (990000000 : ℚ) / 1000000000 = 1999 / 100
  norm_num

/-- C2: `recordCartActive` yields inactivity 0 for an untracked user,
floor((now - entry)/1000) seconds for a tracked entry, and overwrites the
entry with `now`; the per-user step performs exactly this operation before the
value reaches anything downstream: in every non-empty-cart case the resulting
map holds `now` for the user, and any payload handed to the analysis carries
the seconds value computed from the pre-step entry. -/
theorem C2_recordCartActive :
    ∀ (m : IMap) (userId : String) (now : Int),
      (m userId = none → (recordCartActive m userId now).1 = 0) ∧
      (∀ t, m userId = some t →
        (recordCartActive m userId now).1 = Int.fdiv (now - t) 1000) ∧
      (recordCartActive m userId now).2 userId = some now ∧
      (∀ (env : Env) (cart : Cart), getCartForUser env userId = .ok cart →
        cart.items.isEmpty = false →
        (processUser env m now userId).map userId = some now ∧
        ∀ p ∈ (processUser env m now userId).analyzed,
          p.inactivityTimeSeconds = (recordCartActive m userId now).1) := by
  intro m userId now
  refine ⟨?_, ?_, mapSet_self m userId now, ?_⟩
  · intro h
    simp [recordCartActive, inactivityMs, h]
  · intro t h
    simp [recordCartActive, inactivityMs, h]
  · intro env cart h hne
    cases hfa : fetchAll env cart.items with
    | error err =>
        rw [processUser_fetchError h hne hfa]
        exact ⟨mapSet_self m userId now, by intro p hp; simp at hp⟩
    | ok productDetails =>
        by_cases hg : (buildPayload userId (inactivityMs m userId now) cart
            productDetails).inactivityTimeSeconds > 60
        · cases ha : env.analyze (buildPayload userId (inactivityMs m userId now) cart
              productDetails) with
          | error err =>
              rw [processUser_analyzeError h hne hfa hg ha]
              refine ⟨mapSet_self m userId now, ?_⟩
              intro p hp
              simp at hp
              subst hp
              rfl
          | ok analysis =>
              rw [processUser_decision h hne hfa hg ha]
              refine ⟨mapSet_self m userId now, ?_⟩
              intro p hp
              simp at hp
              subst hp
              rfl
        · rw [processUser_belowGate h hne hfa hg]
          exact ⟨mapSet_self m userId now, by intro p hp; simp at hp⟩

/-- Witness for C2: a user tracked since timestamp 0 and seen again at 61000ms
reports 61 seconds, and the step overwrites the entry with the new time. -/
theorem C2_recordCartActive_witness :
    (recordCartActive m1 "1" 61000).1 = Int.fdiv (61000 - 0) 1000 ∧
    (processUser envHappy m1 61000 "1").map "1" = some 61000 :=
  ⟨(C2_recordCartActive m1 "1" 61000).2.1 0 rfl,
   ((C2_recordCartActive m1 "1" 61000).2.2.2 envHappy (exampleCart "1") rfl rfl).1⟩

/-- C6: observing an empty cart removes the tracked entry and only that entry,
doing it twice is the same as doing it once, a user is absent from the map
exactly when never recorded active or last observed with an empty cart, a
`recordCartActive` after a `recordCartEmpty` reports 0 again, and the
empty-cart branch of the per-user step performs exactly `recordCartEmpty`. -/
theorem C6_recordCartEmpty :
    (∀ (m : IMap) (userId : String), recordCartEmpty m userId userId = none) ∧
    (∀ (m : IMap) (userId x : String), x ≠ userId → recordCartEmpty m userId x = m x) ∧
    (∀ (m : IMap) (userId : String),
      recordCartEmpty (recordCartEmpty m userId) userId = recordCartEmpty m userId) ∧
    (∀ (tr : List (String × CartObs)) (userId : String),
      runTrace tr mapEmpty userId = none ↔
        (lastObs userId tr = none ∨ lastObs userId tr = some CartObs.empty)) ∧
    (∀ (m : IMap) (userId : String) (now : Int),
      (recordCartActive (recordCartEmpty m userId) userId now).1 = 0) ∧
    (∀ (env : Env) (m : IMap) (now : Int) (userId : String) (cart : Cart),
      getCartForUser env userId = .ok cart → cart.items.isEmpty = true →
      (processUser env m now userId).map = recordCartEmpty m userId) := by
  refine ⟨recordCartEmpty_self, ?_, ?_, ?_, ?_, ?_⟩
  · intro m userId x h
    exact recordCartEmpty_other h
  · intro m userId
    show (if ((recordCartEmpty m userId) userId).isSome then
        mapDelete (recordCartEmpty m userId) userId else recordCartEmpty m userId) =
      recordCartEmpty m userId
    rw [recordCartEmpty_self]
    rfl
  · intro tr userId
    exact runTrace_absent_aux tr mapEmpty userId none (by simp [mapEmpty])
  · intro m userId now
    simp [recordCartActive, inactivityMs, recordCartEmpty_self]
  · intro env m now userId cart h he
    rw [processUser_emptyCart h he]

/-- Witness for C6: deleting the entry of user 1 leaves user 2 alone, and an
empty-cart tick step for user 1 leaves exactly `recordCartEmpty` behind. -/
theorem C6_recordCartEmpty_witness :
    recordCartEmpty m1 "1" "2" = m1 "2" ∧
    (processUser envEmptyCart m1 1000 "1").map = recordCartEmpty m1 "1" :=
  ⟨C6_recordCartEmpty.2.1 m1 "1" "2" (by decide),
   C6_recordCartEmpty.2.2.2.2.2 envEmptyCart m1 1000 "1" ⟨"1", []⟩ rfl rfl⟩

/-- C3: the analysis is never invoked for a user whose computed inactivity is
at most 60 seconds: every payload handed to the analysis call carries
inactivity strictly above 60; concretely, with a tracked entry exactly 60
seconds old the analysis is skipped, and with one 61 seconds old it is
invoked. -/
theorem C3_gate :
    (∀ (env : Env) (m : IMap) (now : Int) (userId : String),
      ∀ p ∈ (processUser env m now userId).analyzed, p.inactivityTimeSeconds > 60) ∧
    (processUser envHappy m1 60000 "1").analyzed = [] ∧
    (processUser envHappy m1 61000 "1").analyzed ≠ [] := by
  refine ⟨?_, rfl, by decide⟩
  intro env m now userId p hp
  cases hc : getCartForUser env userId with
  | error err =>
      rw [processUser_cartError hc] at hp
      simp at hp
  | ok cart =>
      cases hne : cart.items.isEmpty with
      | true =>
          rw [processUser_emptyCart hc hne] at hp
          simp at hp
      | false =>
          cases hfa : fetchAll env cart.items with
          | error err =>
              rw [processUser_fetchError hc hne hfa] at hp
              simp at hp
          | ok productDetails =>
              by_cases hg : (buildPayload userId (inactivityMs m userId now) cart
                  productDetails).inactivityTimeSeconds > 60
              · cases ha : env.analyze (buildPayload userId (inactivityMs m userId now) cart
                    productDetails) with
                | error err =>
                    rw [processUser_analyzeError hc hne hfa hg ha] at hp
                    simp at hp
                    subst hp
                    exact hg
                | ok analysis =>
                    rw [processUser_decision hc hne hfa hg ha] at hp
                    simp at hp
                    subst hp
                    exact hg
              · rw [processUser_belowGate hc hne hfa hg] at hp
                simp at hp

/-- Witness for C3: the payload analyzed at 61 seconds of inactivity indeed
carries inactivity above 60. -/
theorem C3_gate_witness :
    (buildPayload "1" (inactivityMs m1 "1" 61000) (exampleCart "1")
      [exampleProduct1, exampleProduct2]).inactivityTimeSeconds > 60 :=
  C3_gate.1 envHappy m1 61000 "1"
    (buildPayload "1" (inactivityMs m1 "1" 61000) (exampleCart "1")
      [exampleProduct1, exampleProduct2])
    (by
      have h : (processUser envHappy m1 61000 "1").analyzed =
          [buildPayload "1" (inactivityMs m1 "1" 61000) (exampleCart "1")
            [exampleProduct1, exampleProduct2]] := rfl
      rw [h]
      exact List.mem_singleton_self _)

/-- C4: enrichment fails as a unit: the joined fetch fails exactly when some
single fetch fails, in which case the step produces no payload and no email
(no partially enriched profile) and only records the caught error, while every
user of the tick is still processed, whatever happened to the others. -/
theorem C4_enrichment_fails_as_unit :
    (∀ (env : Env) (items : List CartItem),
      (∃ err, fetchAll env items = .error err) ↔
        (∃ item ∈ items, ∃ err, getProductDetails env item.product_id = .error err)) ∧
    (∀ (env : Env) (m : IMap) (now : Int) (userId : String) (cart : Cart) (err : GrpcErr),
      getCartForUser env userId = .ok cart → cart.items.isEmpty = false →
      fetchAll env cart.items = .error err →
      processUser env m now userId = ⟨mapSet m userId now, [], [], some err⟩) ∧
    (∀ (env : Env) (now : Int) (users : List String) (m : IMap),
      ((tick env now users m).2).map Prod.fst = users) :=
  ⟨fetchAll_error_iff,
   fun _ _ _ _ _ _ h hne hf => processUser_fetchError h hne hf,
   fun env now users m => tick_users env now users m⟩

/-- Witness for C4: with a failing catalog the step of user 1 catches the
error with nothing analyzed or sent, and a full tick still yields an outcome
for each of the three candidate users. -/
theorem C4_enrichment_witness :
    processUser envFetchFail m1 61000 "1" =
      ⟨mapSet m1 "1" 61000, [], [], some ⟨StatusCode.INTERNAL⟩⟩ ∧
    ((tick envFetchFail 61000 activeUserIds m1).2).map Prod.fst = activeUserIds :=
  ⟨C4_enrichment_fails_as_unit.2.1 envFetchFail m1 61000 "1" (exampleCart "1")
      ⟨StatusCode.INTERNAL⟩ rfl rfl rfl,
   C4_enrichment_fails_as_unit.2.2 envFetchFail 61000 activeUserIds m1⟩

/-- C8: when the external analysis call fails (error or timeout) after the
gate passed, the step sends no email and catches the error instead of failing
unhandled, so the effective decision is "do not send", and a tick in such an
environment still processes every user. -/
theorem C8_analysis_failure_no_send :
    (∀ (env : Env) (m : IMap) (now : Int) (userId : String) (cart : Cart)
        (productDetails : List Product) (err : GrpcErr),
      getCartForUser env userId = .ok cart → cart.items.isEmpty = false →
      fetchAll env cart.items = .ok productDetails →
      (buildPayload userId (inactivityMs m userId now) cart
        productDetails).inactivityTimeSeconds > 60 →
      env.analyze (buildPayload userId (inactivityMs m userId now) cart
        productDetails) = .error err →
      (processUser env m now userId).emails = [] ∧
      (processUser env m now userId).caught = some err) ∧
    (∀ (now : Int) (users : List String) (m : IMap),
      ((tick envAnalyzeFail now users m).2).map Prod.fst = users) := by
  constructor
  · intro env m now userId cart productDetails err h hne hf hg ha
    rw [processUser_analyzeError h hne hf hg ha]
    exact ⟨rfl, rfl⟩
  · intro now users m
    exact tick_users envAnalyzeFail now users m

/-- Witness for C8: under a timing-out analysis backend, the step of user 1 at
61 seconds of inactivity sends nothing and catches the timeout. -/
theorem C8_analysis_failure_witness :
    (processUser envAnalyzeFail m1 61000 "1").emails = [] ∧
    (processUser envAnalyzeFail m1 61000 "1").caught =
      some ⟨StatusCode.DEADLINE_EXCEEDED⟩ :=
  C8_analysis_failure_no_send.1 envAnalyzeFail m1 61000 "1" (exampleCart "1")
    [exampleProduct1, exampleProduct2] ⟨StatusCode.DEADLINE_EXCEEDED⟩
    rfl rfl rfl (by decide) rfl

/-- C9: the Notifier builds, for a decision saying send with percentage p, the
request holding the recipient address userId@example.com, the discount code
COMEBACK followed by p, the percentage p itself and the fixed reason message,
and that request is exactly what the step dispatches. -/
theorem C9_email_payload :
    (∀ (userEmail : String) (discount : Decision),
      sendDiscountEmail userEmail discount =
        ⟨userEmail, "COMEBACK" ++ toString discount.discountPercentage,
          discount.discountPercentage, reasonMessage⟩) ∧
    (∀ (env : Env) (m : IMap) (now : Int) (userId : String) (cart : Cart)
        (productDetails : List Product) (p : Int) (r : String),
      getCartForUser env userId = .ok cart → cart.items.isEmpty = false →
      fetchAll env cart.items = .ok productDetails →
      (buildPayload userId (inactivityMs m userId now) cart
        productDetails).inactivityTimeSeconds > 60 →
      env.analyze (buildPayload userId (inactivityMs m userId now) cart
        productDetails) = .ok ⟨true, p, r⟩ →
      (processUser env m now userId).emails =
        [⟨userId ++ "@example.com", "COMEBACK" ++ toString p, p, reasonMessage⟩]) := by
  constructor
  · intro userEmail discount
    rfl
  · intro env m now userId cart productDetails p r h hne hf hg ha
    rw [processUser_decision h hne hf hg ha]
    rfl

/-- Witness for C9: under the shipped mock the step of user 1 at 61 seconds
dispatches exactly one request with address, code, percentage and message. -/
theorem C9_email_payload_witness :
    (processUser envHappy m1 61000 "1").emails =
      [⟨"1" ++ "@example.com", "COMEBACK" ++ toString (15 : Int), 15, reasonMessage⟩] :=
  C9_email_payload.2 envHappy m1 61000 "1" (exampleCart "1")
    [exampleProduct1, exampleProduct2] 15
    "High cart value with significant user hesitation."
    rfl rfl rfl (by decide) rfl

/-- C10: the shipped analysis implementation returns the same constant
decision (send, 15 percent) for every payload, and consequently, whenever the
gate passes and enrichment succeeds under the shipped analysis, a 15 percent
discount email send is attempted for that user in that tick. -/
theorem C10_constant_decision :
    (∀ (userData : AnalysisPayload),
      analyzeUserBehavior userData =
        ⟨true, 15, "High cart value with significant user hesitation."⟩) ∧
    (∀ (env : Env) (m : IMap) (now : Int) (userId : String) (cart : Cart)
        (productDetails : List Product),
      env.analyze = mockAnalyze →
      getCartForUser env userId = .ok cart → cart.items.isEmpty = false →
      fetchAll env cart.items = .ok productDetails →
      (buildPayload userId (inactivityMs m userId now) cart
        productDetails).inactivityTimeSeconds > 60 →
      (processUser env m now userId).emails =
        [sendDiscountEmail (userId ++ "@example.com")
          ⟨true, 15, "High cart value with significant user hesitation."⟩] ∧
      (sendDiscountEmail (userId ++ "@example.com")
        ⟨true, 15, "High cart value with significant user hesitation."⟩).discount_percentage
        = 15) := by
  constructor
  · intro userData
    rfl
  · intro env m now userId cart productDetails hmock h hne hf hg
    have ha : env.analyze (buildPayload userId (inactivityMs m userId now) cart
        productDetails) =
        .ok ⟨true, 15, "High cart value with significant user hesitation."⟩ := by
      rw [hmock]
      rfl
    rw [processUser_decision h hne hf hg ha]
    exact ⟨rfl, rfl⟩

/-- Witness for C10: under the shipped environment the step of user 1 at 61
seconds attempts exactly the 15 percent send. -/
theorem C10_constant_decision_witness :
    (processUser envHappy m1 61000 "1").emails =
      [sendDiscountEmail ("1" ++ "@example.com")
        ⟨true, 15, "High cart value with significant user hesitation."⟩] :=
  (C10_constant_decision.2 envHappy m1 61000 "1" (exampleCart "1")
    [exampleProduct1, exampleProduct2] rfl rfl rfl rfl (by decide)).1

/-- Value of the enriched total on the spec example, in the binary64 model:
the stored double is exactly 25.  (The double sum 10*2 + 5.005 has exact value
25.004999999999999005..., strictly below 25.005, so toFixed(2) yields "25.00"
and parsing it back gives the double 25.) -/
theorem enrichedTotalFP_example_val :
    Dy.toRat (enrichedTotalFP exampleItems exampleProducts) = 25 := by
  have h : enrichedTotalFP exampleItems exampleProducts = ⟨7036874417766400, -48⟩ := by
    decide
  rw [h]
  show ((7036874417766400 : Int) : ℚ) * (2 : ℚ) ^ (-48 : Int) = 25
  rw [zpow_neg]
  norm_num

/-- C1 counterexample: in the IEEE-754 binary64 arithmetic the program
performs, the spec example cart (qty 2 at 10.00 dollars plus qty 1 at 5.005
dollars) is enriched with total cart value 25 (displayed 25.00), not 25.01 as
the claim states. -/
theorem C1_total_counterexample :
    Dy.toRat (enrichedTotalFP exampleItems exampleProducts) ≠ 2501 / 100 ∧
    Dy.toRat (enrichedTotalFP exampleItems exampleProducts) = 25 := by
  refine ⟨?_, enrichedTotalFP_example_val⟩
  rw [enrichedTotalFP_example_val]
  norm_num

/-- C1 amended: for every cart whose product fetches all succeed (hence one
fetched product per line item), the enriched total cart value equals the
binary64 evaluation of the sum over line items of unit price times quantity,
rounded through toFixed(2) (which rounds the exact value of the double, ties
toward the larger hundredth) and re-parsed; the category set is the
deduplicated union of every fetched product's categories; and the example
cart with qty 2 at 10.00 dollars and qty 1 at 5.005 dollars yields total
25.00, with the categories of both products, deduplicated and in first-seen
order. -/
theorem C1_enrichment_amended :
    (∀ (items : List CartItem) (productDetails : List Product),
      productDetails.length = items.length →
      enrichedTotalFP items productDetails =
        fpRound (jsToFixed2Int
          ((productDetails.zip items).foldl
            (fun t pr => dAdd t (dMul (moneyToFloatFP pr.1.price_usd) (dOfInt pr.2.quantity)))
            (dOfInt 0))) 100) ∧
    (∀ (productDetails : List Product),
      (collectCategories productDetails).Nodup ∧
      ∀ x, x ∈ collectCategories productDetails ↔ ∃ p ∈ productDetails, x ∈ p.categories) ∧
    Dy.toRat (enrichedTotalFP exampleItems exampleProducts) = 25 ∧
    collectCategories exampleProducts = ["kitchen", "home", "garden"] := by
  refine ⟨?_, ?_, enrichedTotalFP_example_val, by decide⟩
  · intro items productDetails h
    unfold enrichedTotalFP
    rw [totalCartValueFP_zip items productDetails h]
  · intro productDetails
    exact ⟨collectCategories_nodup productDetails,
      fun x => collectCategories_mem productDetails x⟩

/-- Witness for the amended C1 at the example cart: the length hypothesis
holds and the enriched total is the zipped binary64 fold passed through
toFixed(2). -/
theorem C1_enrichment_amended_witness :
    exampleProducts.length = exampleItems.length ∧
    enrichedTotalFP exampleItems exampleProducts =
      fpRound (jsToFixed2Int
        ((exampleProducts.zip exampleItems).foldl
          (fun t pr => dAdd t (dMul (moneyToFloatFP pr.1.price_usd) (dOfInt pr.2.quantity)))
          (dOfInt 0))) 100 :=
  ⟨by decide, C1_enrichment_amended.1 exampleItems exampleProducts (by decide)⟩
